import Mathlib

/-!
# Verification of the PayClip-CLI-Cyber-Triage incident store and orchestrator

Shallow embedding of the triage pipeline:
* `db_manager.py` (`DatabaseManager`): the SQLite-backed incident store is
  modelled as a pure state `DB` (lists of table rows plus the AUTOINCREMENT
  counters and a logical clock standing for `datetime.now()` /
  `CURRENT_TIMESTAMP`), and each method as a function `DB → ... → result × DB`.
* `gemini_analyzer.py` (`GeminiAnalyzer._read_file_content`,
  `GeminiAnalyzer.analyze_incident`): evidence encoding and the
  classification orchestrator; the external Gemini engine and the filesystem
  are passed in as explicit data (`EngineOutcome`, `IncidentDir`).
* `incident_processor.py` (`IncidentProcessor.run_analysis_cycle`).
* `feedback_cli.py` / `cyber_triage_cli.py` (`collect_feedback`).

Modelling conventions: SQLite `TEXT` columns are `String`, `INTEGER` is `Int`
or `Nat` (ids, counters), `REAL` columns (`confidence`, `relevance_score`,
`processing_time`) are `Int` since every claim only stores and compares them,
timestamps are `Nat` ticks of a logical clock. Python `dict.get` defaulting
is modelled with `Option` payload fields. Columns that are `NULL`able but are
never `NULL` on the code paths under verification are plain `String`.
Storage faults (`sqlite3.Error` other than the duplicate-key
`IntegrityError`) are out of scope: the store is assumed fault-free, as every
claim here is about the fault-free semantics.
-/

deriving instance DecidableEq for Except

/-- Row of the `incidents` table (`db_manager.py`, `_init_database`). -/
structure IncidentRow where
  incident_id : String
  file_name : String
  file_path : String
  file_type : String
  file_size : Int
  user_email : String
  cyberhaven_data : String
  status : String
  severity : String
  policy_severity : String
  incident_date : String
  downloaded_at : Nat
  analyzed_at : Option Nat
deriving Repr, DecidableEq

/-- Payload accepted by `DatabaseManager.insert_incident` (`incident_data`).
`status` is `Option` because the code reads `incident_data.get('status',
'downloaded')`. -/
structure IncidentData where
  incident_id : String
  file_name : String := ""
  file_path : String := ""
  file_type : String := ""
  file_size : Int := 0
  user_email : String := ""
  cyberhaven_data : String := ""
  status : Option String := none
  severity : String := ""
  policy_severity : String := ""
  incident_date : String := ""
deriving Repr, DecidableEq

/-- Row of the `analysis` table (`incident_id TEXT UNIQUE`,
`id INTEGER PRIMARY KEY AUTOINCREMENT`). -/
structure AnalysisRow where
  id : Nat
  incident_id : String
  gemini_verdict : Option String
  gemini_confidence : Option Int
  gemini_reasoning : Option String
  gemini_raw_response : Option String
  executive_summary : Option String
  risk_level : Option String
  processing_time : Option Int
  tokens_used : Int
  created_at : Nat
deriving Repr, DecidableEq

/-- Payload accepted by `DatabaseManager.insert_analysis` (`analysis_data`);
each field mirrors an `analysis_data.get(...)`, with `tokens_used` keeping
its `.get('tokens_used', 0)` default at insertion time. -/
structure AnalysisData where
  incident_id : String
  gemini_verdict : Option String := none
  gemini_confidence : Option Int := none
  gemini_reasoning : Option String := none
  gemini_raw_response : Option String := none
  executive_summary : Option String := none
  risk_level : Option String := none
  processing_time : Option Int := none
  tokens_used : Option Int := none
deriving Repr, DecidableEq

/-- Row of the `feedback` table. -/
structure FeedbackRow where
  id : Nat
  incident_id : String
  analysis_id : Option Nat
  original_verdict : String
  corrected_verdict : String
  analyst_comment : String
  relevance_score : Int
  created_at : Nat
deriving Repr, DecidableEq

/-- Payload accepted by `DatabaseManager.insert_feedback` (`feedback_data`). -/
structure FeedbackData where
  incident_id : String
  analysis_id : Option Nat := none
  original_verdict : String
  corrected_verdict : String
  analyst_comment : String := ""
  relevance_score : Int := 1
deriving Repr, DecidableEq

/-- The persistent store: the three tables the claims touch, the
AUTOINCREMENT counters of `analysis.id` and `feedback.id` (SQLite starts
them at 1), and a logical clock standing for wall-clock time; every
timestamp the code takes via `datetime.now()` / `CURRENT_TIMESTAMP` is a
tick of this clock, which strictly increases across operations. -/
structure DB where
  incidents : List IncidentRow
  analysis : List AnalysisRow
  feedback : List FeedbackRow
  nextAnalysisId : Nat := 1
  nextFeedbackId : Nat := 1
  clock : Nat := 0
deriving Repr, DecidableEq

/-- The freshly initialised database (`_init_database` on a new file). -/
def emptyDB : DB := { incidents := [], analysis := [], feedback := [] }

/-- The row `insert_incident` writes for payload `d` at time `now`:
column defaults applied (`status` defaults to `'downloaded'`,
`downloaded_at` is stamped with `datetime.now()`, `analyzed_at` is NULL). -/
def incidentRowOf (d : IncidentData) (now : Nat) : IncidentRow :=
  { incident_id := d.incident_id
    file_name := d.file_name
    file_path := d.file_path
    file_type := d.file_type
    file_size := d.file_size
    user_email := d.user_email
    cyberhaven_data := d.cyberhaven_data
    status := d.status.getD "downloaded"
    severity := d.severity
    policy_severity := d.policy_severity
    incident_date := d.incident_date
    downloaded_at := now
    analyzed_at := none }

/-- `DatabaseManager.insert_incident`: a duplicate `incident_id` violates the
`PRIMARY KEY`, SQLite raises `IntegrityError`, the method returns `False`
with the store untouched; otherwise the row is inserted and it returns
`True`. -/
def insert_incident (db : DB) (d : IncidentData) : Bool × DB :=
  if db.incidents.any (fun i => i.incident_id == d.incident_id) then
    (false, db)
  else
    (true, { db with
      incidents := db.incidents ++ [incidentRowOf d db.clock]
      clock := db.clock + 1 })

/-- `DatabaseManager.update_incident_status`: sets `status` on the matching
row, and additionally stamps `analyzed_at` when the new status is
`'analyzed'`; returns `True`. -/
def update_incident_status (db : DB) (incident_id status : String) : Bool × DB :=
  (true, { db with
    incidents := db.incidents.map (fun i =>
      if i.incident_id == incident_id then
        if status == "analyzed" then
          { i with status := status, analyzed_at := some db.clock }
        else
          { i with status := status }
      else i)
    clock := db.clock + 1 })

/-- `DatabaseManager.insert_analysis`: `INSERT OR REPLACE INTO analysis`
deletes every row conflicting on the `incident_id UNIQUE` constraint and
inserts a fresh row (fresh AUTOINCREMENT `id` = `lastrowid`), then calls
`update_incident_status(incident_id, 'analyzed')`; returns the new row id.
Note the insert list carries neither `executive_summary` nor `risk_level`
values beyond the payload's, and `tokens_used` defaults to `0`. -/
def insert_analysis (db : DB) (d : AnalysisData) : Nat × DB :=
  let row : AnalysisRow :=
    { id := db.nextAnalysisId
      incident_id := d.incident_id
      gemini_verdict := d.gemini_verdict
      gemini_confidence := d.gemini_confidence
      gemini_reasoning := d.gemini_reasoning
      gemini_raw_response := d.gemini_raw_response
      executive_summary := d.executive_summary
      risk_level := d.risk_level
      processing_time := d.processing_time
      tokens_used := d.tokens_used.getD 0
      created_at := db.clock }
  let db1 : DB := { db with
    analysis := db.analysis.filter (fun a => !(a.incident_id == d.incident_id)) ++ [row]
    nextAnalysisId := db.nextAnalysisId + 1
    clock := db.clock + 1 }
  (db.nextAnalysisId, (update_incident_status db1 d.incident_id "analyzed").2)

/-- `DatabaseManager.insert_feedback`: plain `INSERT`, append-only. -/
def insert_feedback (db : DB) (d : FeedbackData) : Bool × DB :=
  (true, { db with
    feedback := db.feedback ++
      [{ id := db.nextFeedbackId
         incident_id := d.incident_id
         analysis_id := d.analysis_id
         original_verdict := d.original_verdict
         corrected_verdict := d.corrected_verdict
         analyst_comment := d.analyst_comment
         relevance_score := d.relevance_score
         created_at := db.clock }]
    nextFeedbackId := db.nextFeedbackId + 1
    clock := db.clock + 1 })

/-! ## Sorting used by the ordered queries

SQLite's `ORDER BY` is modelled by an insertion sort with a boolean
comparator; the two `ORDER BY` clauses below both use total, transitive
comparators, so the `Pairwise` shape of the output is exactly the SQL
ordering guarantee. -/

/-- Insert `x` into `l` before the first element `y` with `le x y`. -/
def insertLe (le : α → α → Bool) (x : α) : List α → List α
  | [] => [x]
  | y :: ys => if le x y then x :: y :: ys else y :: insertLe le x ys

/-- Insertion sort by the boolean comparator `le`. -/
def sortLe (le : α → α → Bool) : List α → List α
  | [] => []
  | x :: xs => insertLe le x (sortLe le xs)

/-- Comparator of `ORDER BY i.downloaded_at ASC`. -/
def pendingLe (a b : IncidentRow) : Bool :=
  decide (a.downloaded_at ≤ b.downloaded_at)

/-- `DatabaseManager.get_pending_incidents`:
`SELECT i.* FROM incidents i LEFT JOIN analysis a ON i.incident_id =
a.incident_id WHERE a.id IS NULL AND i.status = 'downloaded' ORDER BY
i.downloaded_at ASC LIMIT ?` — keep the incidents with status
`'downloaded'` and no `analysis` row, sort by `downloaded_at` ascending,
truncate to `limit`. -/
def get_pending_incidents (db : DB) (limit : Nat) : List IncidentRow :=
  (sortLe pendingLe
    (db.incidents.filter (fun i =>
      !(db.analysis.any (fun a => a.incident_id == i.incident_id)) &&
      i.status == "downloaded"))).take limit

/-- Comparator of `ORDER BY f.relevance_score DESC, f.created_at DESC`. -/
def ragLe (a b : FeedbackRow) : Bool :=
  decide (b.relevance_score < a.relevance_score) ||
    (a.relevance_score == b.relevance_score && decide (b.created_at ≤ a.created_at))

/-- `DatabaseManager.get_feedback_for_rag`:
`SELECT f.*, ... FROM feedback f JOIN incidents i ON f.incident_id =
i.incident_id LEFT JOIN analysis a ON f.analysis_id = a.id WHERE
f.corrected_verdict != f.original_verdict ORDER BY f.relevance_score DESC,
f.created_at DESC LIMIT ?`. The inner `JOIN incidents` keeps only feedback
rows whose incident exists; the `LEFT JOIN analysis` on the primary key
only contributes the display column `original_reasoning` and neither
filters nor duplicates rows, so the result is modelled as the feedback
rows themselves. -/
def get_feedback_for_rag (db : DB) (limit : Nat) : List FeedbackRow :=
  (sortLe ragLe
    (db.feedback.filter (fun f =>
      f.corrected_verdict != f.original_verdict &&
      db.incidents.any (fun i => i.incident_id == f.incident_id)))).take limit

/-! ## Evidence encoder (`GeminiAnalyzer._read_file_content`) -/

/-- What `_read_file_content` hands to the prompt assembly: either a text
fragment or the decoded `PIL.Image` payload (its pixel data is irrelevant
to every claim, so it is a bare tag). -/
inductive Fragment
  | text (s : String)
  | image
deriving Repr, DecidableEq

/-- One evidence artifact on disk, as the encoder sees it: its base name,
its lower-cased extension (`Path(...).suffix.lower()`, dot included), and
the outcome of attempting the branch-specific read on it — `ok content`
when the reader succeeds (for image extensions the content is unused and
the decoded image is returned), `error msg` when the reader raises with
message `msg`. -/
structure EvidenceFile where
  name : String
  ext : String
  readOutcome : Except String String := .ok ""
deriving Repr, DecidableEq

/-- Image extensions of the multimodal branch. -/
def imageExts : List String := [".png", ".jpg", ".jpeg", ".webp", ".heic", ".heif"]

/-- Text/code extensions read verbatim (with `errors='ignore'`). -/
def textExts : List String :=
  [".txt", ".md", ".py", ".js", ".json", ".xml", ".csv", ".log", ".yaml",
   ".yml", ".sql", ".sh", ".env"]

/-- `GeminiAnalyzer._read_file_content`, branch for branch. Every failure
of a branch-specific reader is caught and turned into a bracketed
placeholder string; a read failure on a plain-text extension escapes the
inner branches and is caught by the enclosing `try`, producing the generic
`[ERROR leyendo archivo: ...]` placeholder. The function is total: the
Python original never lets an exception escape. -/
def read_file_content (f : EvidenceFile) : Fragment :=
  if imageExts.contains f.ext then
    match f.readOutcome with
    | .ok _ => .image
    | .error e => .text ("[ERROR cargando imagen " ++ f.name ++ ": " ++ e ++ "]")
  else if textExts.contains f.ext then
    match f.readOutcome with
    | .ok s => .text s
    | .error e => .text ("[ERROR leyendo archivo: " ++ e ++ "]")
  else if f.ext == ".pdf" then
    match f.readOutcome with
    | .ok s => .text s
    | .error e => .text ("[ARCHIVO PDF: " ++ f.name ++ " - Error: " ++ e ++ "]")
  else if f.ext == ".docx" || f.ext == ".doc" then
    match f.readOutcome with
    | .ok s => .text s
    | .error e => .text ("[ARCHIVO WORD: " ++ f.name ++ " - Error: " ++ e ++ "]")
  else if f.ext == ".xlsx" || f.ext == ".xls" then
    match f.readOutcome with
    | .ok s => .text s
    | .error e => .text ("[ARCHIVO EXCEL: " ++ f.name ++ " - Error: " ++ e ++ "]")
  else
    .text ("[ARCHIVO BINARIO NO SOPORTADO: " ++ f.name ++ " - Tipo: " ++ f.ext ++ "]")

/-! ## Classification orchestrator (`GeminiAnalyzer.analyze_incident`) -/

/-- The engine's parsed JSON reply (`analysis = json.loads(raw_response)`),
field presence made explicit: `none` means the key is absent from the
parsed object, which makes a Python `analysis['key']` access raise
`KeyError('key')`. `incident_context` is kept opaque (its sub-fields are
passed through unchanged). -/
structure Reply where
  verdict : Option String := none
  confidence : Option Int := none
  executive_summary : Option String := none
  incident_context : Option String := none
  reasoning : Option String := none
  risk_level : Option String := none
  indicators : Option (List String) := none
deriving Repr, DecidableEq

/-- Outcome of `model.generate_content(prompt_parts)` followed by
`json.loads(response.text)`: either the call raised (`raised e`), or it
returned raw text `raw` whose JSON parse yielded `parsed` (`.error e` when
`json.loads` raised with message `e`). -/
inductive EngineOutcome
  | raised (e : String)
  | replied (raw : String) (parsed : Except String Reply)
deriving Repr, DecidableEq

/-- The per-incident directory as `analyze_incident` probes it:
whether `metadata.json` exists, the outcome of `json.load`ing it (its
parsed content only feeds the prompt text, so it is opaque), and the first
non-`metadata.json` regular file, if any. -/
structure IncidentDir where
  metadataExists : Bool := true
  metadataParse : Except String Unit := .ok ()
  file : Option EvidenceFile := none
deriving Repr, DecidableEq

/-- The dict `analyze_incident` returns. A field is `some v` exactly when
the corresponding key is present in the returned dict; in particular no
branch of the code ever puts a `tokens_used` key in it. -/
structure AnalyzeResult where
  success : Bool
  error : Option String := none
  incident_id : Option String := none
  analysis_id : Option Nat := none
  verdict : Option String := none
  confidence : Option Int := none
  executive_summary : Option String := none
  incident_context : Option String := none
  reasoning : Option String := none
  risk_level : Option String := none
  indicators : Option (List String) := none
  processing_time : Option Int := none
  tokens_used : Option Int := none
  has_file : Option Bool := none
  file_name : Option (Option String) := none
deriving Repr, DecidableEq

/-- The first required key the success-dict construction trips over:
the dict literal evaluates `analysis['confidence']`,
`analysis['executive_summary']`, `analysis['incident_context']`,
`analysis['reasoning']` in that order (after `analysis['verdict']`, already
known present), and the first missing one raises `KeyError`, whose `str`
is the quoted key name. -/
def firstMissingKey (r : Reply) : Option String :=
  if r.confidence.isNone then some "'confidence'"
  else if r.executive_summary.isNone then some "'executive_summary'"
  else if r.incident_context.isNone then some "'incident_context'"
  else if r.reasoning.isNone then some "'reasoning'"
  else none

/-- `GeminiAnalyzer.analyze_incident`. Inputs beyond the store: the
incident id, the directory view, the engine outcome for this request, and
`elapsed` = `time.time() - start_time` measured at the response. Prompt
assembly (system prompt, RAG context via `get_feedback_for_rag`, metadata
formatting, the evidence fragment from `read_file_content`) only builds the
request text and has no effect on the store or on the control flow below,
so its string output is not reproduced here; `read_file_content` itself is
modelled above because claims depend on it.

Control flow, in source order: missing `metadata.json` returns a failure
dict *without* `incident_id`; every later exception (metadata JSON parse,
engine invocation, reply JSON parse, `KeyError` on a required reply field)
is caught by the enclosing `try` and returns
`{'success': False, 'error': str(e), 'incident_id': incident_id}`.
On a reply containing `verdict`, `insert_analysis` is executed *before*
the success dict is built, so a reply missing one of the other required
keys persists the analysis (and flips the incident to `analyzed`) and then
returns a failure dict. -/
def analyze_incident (db : DB) (incident_id : String) (dir : IncidentDir)
    (engine : EngineOutcome) (elapsed : Int) : AnalyzeResult × DB :=
  if !dir.metadataExists then
    ({ success := false, error := some "No se encontró metadata.json" }, db)
  else
    match dir.metadataParse with
    | .error e =>
        ({ success := false, error := some e, incident_id := some incident_id }, db)
    | .ok _ =>
      match engine with
      | .raised e =>
          ({ success := false, error := some e, incident_id := some incident_id }, db)
      | .replied raw parsed =>
        match parsed with
        | .error e =>
            ({ success := false, error := some e, incident_id := some incident_id }, db)
        | .ok analysis =>
          match analysis.verdict with
          | none =>
              -- `analysis_data` evaluates `analysis['verdict']`: KeyError
              -- before any store write.
              ({ success := false, error := some "'verdict'",
                 incident_id := some incident_id }, db)
          | some v =>
            let analysis_data : AnalysisData :=
              { incident_id := incident_id
                gemini_verdict := some v
                gemini_confidence := analysis.confidence
                gemini_reasoning := analysis.reasoning
                gemini_raw_response := some raw
                processing_time := some elapsed }
            let inserted := insert_analysis db analysis_data
            match firstMissingKey analysis with
            | some k =>
                ({ success := false, error := some k,
                   incident_id := some incident_id }, inserted.2)
            | none =>
                ({ success := true
                   incident_id := some incident_id
                   analysis_id := some inserted.1
                   verdict := some v
                   confidence := analysis.confidence
                   executive_summary := analysis.executive_summary
                   incident_context := analysis.incident_context
                   reasoning := analysis.reasoning
                   risk_level := some (analysis.risk_level.getD "N/A")
                   indicators := some (analysis.indicators.getD [])
                   processing_time := some elapsed
                   has_file := some dir.file.isSome
                   file_name := some (dir.file.map (·.name)) }, inserted.2)

/-! ## Cycle coordinator (`IncidentProcessor.run_analysis_cycle`) -/

/-- The per-incident environment the cycle finds: whether the incident's
directory exists, its contents, the engine outcome for its request, and
the measured processing time. -/
structure IncidentEnv where
  dirExists : Bool := true
  dir : IncidentDir := {}
  engine : EngineOutcome
  elapsed : Int := 0
deriving Repr, DecidableEq

/-- One entry of the cycle's `details` list:
`{'incident_id': ..., 'verdict': ..., 'confidence': ...}` (the bracket
accesses are on a success result, where both keys are present). -/
structure CycleDetail where
  incident_id : String
  verdict : Option String
  confidence : Option Int
deriving Repr, DecidableEq

/-- The `results` dict of `run_analysis_cycle`. -/
structure CycleResult where
  analyzed : Nat := 0
  errors : Nat := 0
  total_tokens : Int := 0
  details : List CycleDetail := []
deriving Repr, DecidableEq

/-- The body of the `for incident in pending` loop: a missing directory
counts an error and skips; otherwise `analyze_incident` runs (it is total,
so the surrounding `except` never fires), a success bumps `analyzed`, adds
`analysis_result.get('tokens_used', 0)` — a key the result never has, so
`0` — and appends a detail entry, a failure bumps `errors`. The
`_save_analysis_to_file` mirror write touches only the filesystem. -/
def cycleStep (env : String → IncidentEnv) (acc : CycleResult × DB)
    (inc : IncidentRow) : CycleResult × DB :=
  let e := env inc.incident_id
  if !e.dirExists then
    ({ acc.1 with errors := acc.1.errors + 1 }, acc.2)
  else
    let out := analyze_incident acc.2 inc.incident_id e.dir e.engine e.elapsed
    if out.1.success then
      ({ acc.1 with
         analyzed := acc.1.analyzed + 1
         total_tokens := acc.1.total_tokens + (out.1.tokens_used.getD 0)
         details := acc.1.details ++
           [{ incident_id := inc.incident_id
              verdict := out.1.verdict
              confidence := out.1.confidence }] }, out.2)
    else
      ({ acc.1 with errors := acc.1.errors + 1 }, out.2)

/-- `IncidentProcessor.run_analysis_cycle`: select the pending incidents,
short-circuit when there are none, else fold the loop body over them. -/
def run_analysis_cycle (db : DB) (max_incidents : Nat)
    (env : String → IncidentEnv) : CycleResult × DB :=
  let pending := get_pending_incidents db max_incidents
  if pending.isEmpty then ({}, db)
  else pending.foldl (cycleStep env) ({}, db)

/-! ## Feedback loop (`feedback_cli.collect_feedback`,
`cyber_triage_cli.collect_feedback` and its caller) -/

/-- The analyst's interaction with the feedback prompt: confirm the
verdict, correct it to `verdict` with a free-text `comment`, or cancel
(option `0`, offered by `feedback_cli` only). -/
inductive AnalystChoice
  | confirm
  | correct (verdict : String) (comment : String)
  | cancel
deriving Repr, DecidableEq

/-- The row `feedback_cli.get_analyzed_incidents` hands to
`collect_feedback`: the incident joined with its analysis (only the fields
the feedback path reads). -/
structure AnalyzedView where
  incident_id : String
  gemini_verdict : String
  analysis_id : Option Nat
deriving Repr, DecidableEq

/-- `feedback_cli.collect_feedback`: confirmation inserts a Feedback row
with `corrected_verdict = original_verdict`, comment `'Confirmado por
analista'` and `relevance_score = 1.0`; a correction inserts the chosen
verdict with the analyst's comment; cancel inserts nothing and returns
`False`. -/
def feedbackCliCollect (db : DB) (inc : AnalyzedView) (choice : AnalystChoice) :
    Bool × DB :=
  match choice with
  | .confirm =>
      (true, (insert_feedback db
        { incident_id := inc.incident_id
          analysis_id := inc.analysis_id
          original_verdict := inc.gemini_verdict
          corrected_verdict := inc.gemini_verdict
          analyst_comment := "Confirmado por analista"
          relevance_score := 1 }).2)
  | .correct v comment =>
      (true, (insert_feedback db
        { incident_id := inc.incident_id
          analysis_id := inc.analysis_id
          original_verdict := inc.gemini_verdict
          corrected_verdict := v
          analyst_comment := comment
          relevance_score := 1 }).2)
  | .cancel => (false, db)

/-- Partial feedback payload built by `cyber_triage_cli.collect_feedback`
when the analyst corrects. -/
structure CyberFeedback where
  original_verdict : String
  corrected_verdict : String
  analyst_comment : String
  relevance_score : Int := 1
deriving Repr, DecidableEq

/-- `cyber_triage_cli.collect_feedback`: on confirmation it prints
`'✅ Feedback guardado (Positivo)'` and returns `None` — no payload; on a
correction it returns the payload dict. (This prompt has no cancel
option; `cancel` is unreachable in this flow and returns `None` like
confirmation.) -/
def cyberCliCollect (resultVerdict : String) (choice : AnalystChoice) :
    Option CyberFeedback :=
  match choice with
  | .confirm => none
  | .correct v comment =>
      some { original_verdict := resultVerdict
             corrected_verdict := v
             analyst_comment := comment }
  | .cancel => none

/-- The caller in `cyber_triage_cli.analyze_incidents_menu`:
`fb = collect_feedback(result); if fb: analyzer.submit_feedback(
result['incident_id'], result['analysis_id'], **fb)`, where
`submit_feedback` wraps `insert_feedback`. A `None` payload — in
particular every confirmation — writes nothing to the store. -/
def cyberCliHandleFeedback (db : DB) (res : AnalyzeResult)
    (choice : AnalystChoice) : DB :=
  match cyberCliCollect (res.verdict.getD "") choice with
  | none => db
  | some fb =>
      (insert_feedback db
        { incident_id := res.incident_id.getD ""
          analysis_id := res.analysis_id
          original_verdict := fb.original_verdict
          corrected_verdict := fb.corrected_verdict
          analyst_comment := fb.analyst_comment
          relevance_score := fb.relevance_score }).2

/-! ## Properties of the insertion sort -/

theorem mem_insertLe (le : α → α → Bool) (x : α) (l : List α) (a : α) :
    a ∈ insertLe le x l ↔ a = x ∨ a ∈ l := by
  induction l with
  | nil => simp [insertLe]
  | cons y ys ih =>
    simp only [insertLe]
    split
    · simp [List.mem_cons]
    · simp only [List.mem_cons, ih]
      tauto

theorem mem_sortLe (le : α → α → Bool) (l : List α) (a : α) :
    a ∈ sortLe le l ↔ a ∈ l := by
  induction l with
  | nil => simp [sortLe]
  | cons x xs ih => simp [sortLe, mem_insertLe, ih, List.mem_cons]

theorem sorted_insertLe (le : α → α → Bool)
    (htot : ∀ a b, le a b = true ∨ le b a = true)
    (htrans : ∀ a b c, le a b = true → le b c = true → le a c = true)
    (x : α) (l : List α) (h : l.Pairwise (fun a b => le a b = true)) :
    (insertLe le x l).Pairwise (fun a b => le a b = true) := by
  induction l with
  | nil => simp [insertLe]
  | cons y ys ih =>
    rw [List.pairwise_cons] at h
    obtain ⟨hy, hys⟩ := h
    simp only [insertLe]
    split
    case isTrue hxy =>
      refine List.pairwise_cons.mpr ⟨?_, List.pairwise_cons.mpr ⟨hy, hys⟩⟩
      intro b hb
      rcases List.mem_cons.mp hb with rfl | hb
      · exact hxy
      · exact htrans x y b hxy (hy b hb)
    case isFalse hxy =>
      have hyx : le y x = true := (htot x y).resolve_left hxy
      refine List.pairwise_cons.mpr ⟨?_, ih hys⟩
      intro b hb
      rcases (mem_insertLe le x ys b).mp hb with rfl | hb
      · exact hyx
      · exact hy b hb

theorem sorted_sortLe (le : α → α → Bool)
    (htot : ∀ a b, le a b = true ∨ le b a = true)
    (htrans : ∀ a b c, le a b = true → le b c = true → le a c = true)
    (l : List α) :
    (sortLe le l).Pairwise (fun a b => le a b = true) := by
  induction l with
  | nil => simp [sortLe]
  | cons x xs ih => exact sorted_insertLe le htot htrans x _ ih

theorem pendingLe_total (a b : IncidentRow) :
    pendingLe a b = true ∨ pendingLe b a = true := by
  simp only [pendingLe, decide_eq_true_eq]
  omega

theorem pendingLe_trans (a b c : IncidentRow) :
    pendingLe a b = true → pendingLe b c = true → pendingLe a c = true := by
  simp only [pendingLe, decide_eq_true_eq]
  omega

theorem ragLe_iff (a b : FeedbackRow) :
    ragLe a b = true ↔
      b.relevance_score < a.relevance_score ∨
        (a.relevance_score = b.relevance_score ∧ b.created_at ≤ a.created_at) := by
  simp [ragLe, Bool.or_eq_true, Bool.and_eq_true, decide_eq_true_eq, beq_iff_eq]

theorem ragLe_total (a b : FeedbackRow) :
    ragLe a b = true ∨ ragLe b a = true := by
  rw [ragLe_iff, ragLe_iff]
  omega

theorem ragLe_trans (a b c : FeedbackRow) :
    ragLe a b = true → ragLe b c = true → ragLe a c = true := by
  rw [ragLe_iff, ragLe_iff, ragLe_iff]
  omega

/-- Folding a sequence of `insert_analysis` calls over the store. -/
def applyAnalyses (db : DB) (ps : List AnalysisData) : DB :=
  ps.foldl (fun d p => (insert_analysis d p).2) db

/-- The `analysis` row written by `insert_analysis db p`. -/
def analysisRowOf (db : DB) (p : AnalysisData) : AnalysisRow :=
  { id := db.nextAnalysisId
    incident_id := p.incident_id
    gemini_verdict := p.gemini_verdict
    gemini_confidence := p.gemini_confidence
    gemini_reasoning := p.gemini_reasoning
    gemini_raw_response := p.gemini_raw_response
    executive_summary := p.executive_summary
    risk_level := p.risk_level
    processing_time := p.processing_time
    tokens_used := p.tokens_used.getD 0
    created_at := db.clock }

theorem filter_erase_self (s : String) (l : List AnalysisRow) :
    (l.filter (fun a => !(a.incident_id == s))).filter
      (fun a => a.incident_id == s) = [] := by
  induction l with
  | nil => rfl
  | cons a l ih =>
    by_cases h : a.incident_id = s
    · simp [List.filter_cons, h, ih]
    · simp [List.filter_cons, h, ih]

/-- After one `insert_analysis db p`, the rows with `p`'s incident id are
exactly the freshly written row. -/
theorem insertAnalysis_rows (db : DB) (p : AnalysisData) :
    ((insert_analysis db p).2).analysis.filter
      (fun a => a.incident_id == p.incident_id) = [analysisRowOf db p] := by
  simp only [insert_analysis, update_incident_status, List.filter_append,
    filter_erase_self, List.nil_append, analysisRowOf]
  simp [List.filter_cons]

/-! ## Claim theorems -/

/-- **C3.** For every limit `n` and every store state,
`get_pending_incidents n` returns at most `n` incidents, each of which has
status `'downloaded'` and has no Analysis row (it never returns an
incident that has an Analysis row), and the returned list is ordered by
acquisition time (`downloaded_at`) ascending, oldest-acquired first. -/
theorem getPendingIncidents_spec (db : DB) (n : Nat) :
    (get_pending_incidents db n).length ≤ n ∧
    (∀ i ∈ get_pending_incidents db n,
      i.status = "downloaded" ∧ ∀ a ∈ db.analysis, a.incident_id ≠ i.incident_id) ∧
    (get_pending_incidents db n).Pairwise
      (fun a b => a.downloaded_at ≤ b.downloaded_at) := by
  refine ⟨List.length_take_le n _, ?_, ?_⟩
  · intro i hi
    have hi' : i ∈ sortLe pendingLe
        (db.incidents.filter (fun i =>
          !(db.analysis.any (fun a => a.incident_id == i.incident_id)) &&
          i.status == "downloaded")) := List.take_subset n _ hi
    have hmem := (mem_sortLe _ _ i).mp hi'
    have hcond := (List.mem_filter.mp hmem).2
    simp only [Bool.and_eq_true, Bool.not_eq_true', beq_iff_eq,
      List.any_eq_false, beq_eq_false_iff_ne, ne_eq] at hcond
    exact ⟨hcond.2, hcond.1⟩
  · have hsorted := sorted_sortLe pendingLe pendingLe_total pendingLe_trans
      (db.incidents.filter (fun i =>
        !(db.analysis.any (fun a => a.incident_id == i.incident_id)) &&
        i.status == "downloaded"))
    have htake := hsorted.sublist (List.take_sublist n _)
    exact htake.imp (by
      intro a b h
      simpa [pendingLe, decide_eq_true_eq] using h)

/-- **C5.** For every limit `n`, `get_feedback_for_rag n` never includes a
Feedback row whose `corrected_verdict` equals its `original_verdict`, and
the rows it returns are ordered by `relevance_score` descending, then by
creation time (recency) descending. -/
theorem getFeedbackForRag_spec (db : DB) (n : Nat) :
    (∀ f ∈ get_feedback_for_rag db n, f.corrected_verdict ≠ f.original_verdict) ∧
    (get_feedback_for_rag db n).Pairwise
      (fun a b => b.relevance_score < a.relevance_score ∨
        (a.relevance_score = b.relevance_score ∧ b.created_at ≤ a.created_at)) := by
  constructor
  · intro f hf
    have hf' : f ∈ sortLe ragLe
        (db.feedback.filter (fun f =>
          f.corrected_verdict != f.original_verdict &&
          db.incidents.any (fun i => i.incident_id == f.incident_id))) :=
      List.take_subset n _ hf
    have hmem := (mem_sortLe _ _ f).mp hf'
    have hcond := (List.mem_filter.mp hmem).2
    simp only [Bool.and_eq_true, bne_iff_ne, ne_eq] at hcond
    exact hcond.1
  · have hsorted := sorted_sortLe ragLe ragLe_total ragLe_trans
      (db.feedback.filter (fun f =>
        f.corrected_verdict != f.original_verdict &&
        db.incidents.any (fun i => i.incident_id == f.incident_id)))
    have htake := hsorted.sublist (List.take_sublist n _)
    exact htake.imp (by
      intro a b h
      exact (ragLe_iff a b).mp h)

/-- **C2.** For every incident_id `x` and every nonempty sequence of
`insert_analysis` calls for that id, afterwards exactly one Analysis row
exists with incident_id `x`, and its stored fields equal the payload of
the most recent call (insert-or-replace semantics, not append). -/
theorem insertAnalysis_atMostOne (db : DB) (x : String) (ps : List AnalysisData)
    (hne : ps ≠ []) (hall : ∀ p ∈ ps, p.incident_id = x) :
    ∃ r : AnalysisRow,
      (applyAnalyses db ps).analysis.filter (fun a => a.incident_id == x) = [r] ∧
      r.incident_id = x ∧
      r.gemini_verdict = (ps.getLast hne).gemini_verdict ∧
      r.gemini_confidence = (ps.getLast hne).gemini_confidence ∧
      r.gemini_reasoning = (ps.getLast hne).gemini_reasoning ∧
      r.gemini_raw_response = (ps.getLast hne).gemini_raw_response ∧
      r.executive_summary = (ps.getLast hne).executive_summary ∧
      r.risk_level = (ps.getLast hne).risk_level ∧
      r.processing_time = (ps.getLast hne).processing_time ∧
      r.tokens_used = (ps.getLast hne).tokens_used.getD 0 := by
  induction ps using List.reverseRecOn with
  | nil => exact absurd rfl hne
  | append_singleton qs p _ =>
    have hpx : p.incident_id = x := hall p (by simp)
    have hlast : (qs ++ [p]).getLast hne = p := List.getLast_concat qs
    have hfold : applyAnalyses db (qs ++ [p]) =
        (insert_analysis (applyAnalyses db qs) p).2 := by
      simp [applyAnalyses, List.foldl_append]
    refine ⟨analysisRowOf (applyAnalyses db qs) p, ?_, ?_⟩
    · rw [hfold, ← hpx]
      exact insertAnalysis_rows (applyAnalyses db qs) p
    · simp [analysisRowOf, hpx, hlast]

/-- First `insert_analysis` payload of the C2 witness run. -/
def c2FirstCall : AnalysisData :=
  { incident_id := "I1", gemini_verdict := some "TRUE_POSITIVE" }

/-- Second (most recent) `insert_analysis` payload of the C2 witness run. -/
def c2SecondCall : AnalysisData :=
  { incident_id := "I1", gemini_verdict := some "FALSE_POSITIVE",
    tokens_used := some 7 }

/-- Witness for C2 at a concrete store and two calls for the same id. -/
theorem insertAnalysis_atMostOne_witness :
    ([c2FirstCall, c2SecondCall] ≠ ([] : List AnalysisData)) ∧
    (∃ r : AnalysisRow,
      (applyAnalyses emptyDB [c2FirstCall, c2SecondCall]).analysis.filter
        (fun a => a.incident_id == "I1") = [r] ∧
      r.incident_id = "I1" ∧
      r.gemini_verdict = some "FALSE_POSITIVE" ∧
      r.tokens_used = 7) := by
  refine ⟨by decide, ?_⟩
  obtain ⟨r, h1, h2, h3, h4, h5, h6, h7, h8, h9, h10⟩ :=
    insertAnalysis_atMostOne emptyDB "I1" [c2FirstCall, c2SecondCall]
      (by decide) (by decide)
  refine ⟨r, h1, h2, ?_, ?_⟩
  · rw [h3]; decide
  · rw [h10]; decide

/-! ### C1: status coupling -/

/-- A store mutation issued through `DatabaseManager`'s write contract:
incident intake, analysis commit, feedback append, or a direct status
update. -/
inductive StoreOp
  | intake (d : IncidentData)
  | commitAnalysis (d : AnalysisData)
  | appendFeedback (d : FeedbackData)
  | setStatus (incident_id status : String)
deriving Repr, DecidableEq

/-- Apply one store operation. -/
def applyOp (db : DB) : StoreOp → DB
  | .intake d => (insert_incident db d).2
  | .commitAnalysis d => (insert_analysis db d).2
  | .appendFeedback d => (insert_feedback db d).2
  | .setStatus i s => (update_incident_status db i s).2

/-- Apply a sequence of store operations. -/
def applyOps (db : DB) (ops : List StoreOp) : DB := ops.foldl applyOp db

/-- Side condition under which the status-coupling invariant is preserved:
intake uses the default `'downloaded'` status, an analysis commit targets
an already-stored incident, and the status is never updated directly
(`insert_analysis` performs its own update internally, which is not a
`setStatus` step). -/
def GoodOp (db : DB) : StoreOp → Prop
  | .intake d => d.status = none
  | .commitAnalysis d => ∃ i ∈ db.incidents, i.incident_id = d.incident_id
  | .appendFeedback _ => True
  | .setStatus _ _ => False

/-- Every step of the sequence satisfies `GoodOp` at its pre-state. -/
def GoodOps : DB → List StoreOp → Prop
  | _, [] => True
  | db, op :: rest => GoodOp db op ∧ GoodOps (applyOp db op) rest

instance decGoodOp (db : DB) : (op : StoreOp) → Decidable (GoodOp db op)
  | .intake d => by unfold GoodOp; infer_instance
  | .commitAnalysis d => by unfold GoodOp; infer_instance
  | .appendFeedback d => by unfold GoodOp; infer_instance
  | .setStatus i s => by unfold GoodOp; infer_instance

instance decGoodOps : (db : DB) → (ops : List StoreOp) → Decidable (GoodOps db ops)
  | _, [] => .isTrue trivial
  | db, op :: rest => by
      unfold GoodOps
      have : Decidable (GoodOps (applyOp db op) rest) := decGoodOps _ rest
      infer_instance

/-- The status-coupling invariant: a stored incident has status
`'analyzed'` exactly when an Analysis row with its id exists. -/
def StatusCoupled (db : DB) : Prop :=
  ∀ i ∈ db.incidents,
    (i.status = "analyzed" ↔ ∃ a ∈ db.analysis, a.incident_id = i.incident_id)

/-- Auxiliary invariant: every Analysis row points at a stored incident. -/
def AnalysisAnchored (db : DB) : Prop :=
  ∀ a ∈ db.analysis, ∃ i ∈ db.incidents, i.incident_id = a.incident_id

theorem insert_incident_of_dup (db : DB) (d : IncidentData)
    (h : (db.incidents.any fun i => i.incident_id == d.incident_id) = true) :
    insert_incident db d = (false, db) := by
  simp [insert_incident, h]

theorem insert_incident_of_fresh (db : DB) (d : IncidentData)
    (h : (db.incidents.any fun i => i.incident_id == d.incident_id) = false) :
    insert_incident db d = (true, { db with
      incidents := db.incidents ++ [incidentRowOf d db.clock],
      clock := db.clock + 1 }) := by
  simp [insert_incident, h]

/-- The store state after `insert_analysis`, flattened: the matching
incident flipped to `'analyzed'` (with `analyzed_at` stamped), the old
Analysis rows for the id replaced by the fresh row. -/
theorem insert_analysis_state (db : DB) (d : AnalysisData) :
    (insert_analysis db d).2 =
      { db with
        incidents := db.incidents.map (fun i =>
          if i.incident_id == d.incident_id then
            { i with status := "analyzed", analyzed_at := some (db.clock + 1) }
          else i),
        analysis := db.analysis.filter (fun a => !(a.incident_id == d.incident_id))
          ++ [analysisRowOf db d],
        nextAnalysisId := db.nextAnalysisId + 1,
        clock := db.clock + 2 } := by
  simp [insert_analysis, update_incident_status, analysisRowOf]

theorem flip_incident_id (s : String) (now : Nat) (i : IncidentRow) :
    (if i.incident_id == s then
        { i with status := "analyzed", analyzed_at := some now }
      else i).incident_id = i.incident_id := by
  split <;> rfl

theorem statusCoupled_intake (db : DB) (d : IncidentData)
    (hs : StatusCoupled db) (ha : AnalysisAnchored db) (hd : d.status = none) :
    StatusCoupled (insert_incident db d).2 ∧
      AnalysisAnchored (insert_incident db d).2 := by
  by_cases hdup : (db.incidents.any fun i => i.incident_id == d.incident_id) = true
  · rw [insert_incident_of_dup db d hdup]
    exact ⟨hs, ha⟩
  · have hfresh := insert_incident_of_fresh db d (by
      cases h : db.incidents.any fun i => i.incident_id == d.incident_id
      · rfl
      · exact absurd h hdup)
    have hno : ∀ i ∈ db.incidents, ¬ i.incident_id = d.incident_id := by
      intro i hi hcontra
      exact hdup (List.any_eq_true.mpr ⟨i, hi, by simp [hcontra]⟩)
    rw [hfresh]
    constructor
    · intro i hi
      rcases List.mem_append.mp hi with hold | hnew
      · exact hs i hold
      · have : i = incidentRowOf d db.clock := List.mem_singleton.mp hnew
        subst this
        constructor
        · intro hstat
          exact absurd hstat (by simp [incidentRowOf, hd])
        · rintro ⟨a, haMem, haid⟩
          obtain ⟨i0, hi0, hi0id⟩ := ha a haMem
          exact absurd (hi0id.trans haid) (by
            simpa [incidentRowOf] using hno i0 hi0)
    · intro a haMem
      obtain ⟨i0, hi0, hi0id⟩ := ha a haMem
      exact ⟨i0, List.mem_append_left _ hi0, hi0id⟩

theorem statusCoupled_commit (db : DB) (d : AnalysisData)
    (hs : StatusCoupled db) (ha : AnalysisAnchored db)
    (hg : ∃ i ∈ db.incidents, i.incident_id = d.incident_id) :
    StatusCoupled (insert_analysis db d).2 ∧
      AnalysisAnchored (insert_analysis db d).2 := by
  rw [insert_analysis_state]
  constructor
  · intro i' hi'
    obtain ⟨i, hi, rfl⟩ := List.mem_map.mp hi'
    by_cases hid : i.incident_id = d.incident_id
    · rw [if_pos (by simp [hid])]
      constructor
      · intro _
        refine ⟨analysisRowOf db d, List.mem_append_right _ (List.mem_singleton.mpr rfl), ?_⟩
        simp [analysisRowOf, hid]
      · intro _
        rfl
    · rw [if_neg (by simp [hid])]
      constructor
      · intro hstat
        obtain ⟨a, haMem, haid⟩ := (hs i hi).mp hstat
        refine ⟨a, List.mem_append_left _ (List.mem_filter.mpr ⟨haMem, ?_⟩), haid⟩
        simp only [Bool.not_eq_eq_eq_not, Bool.not_true, beq_eq_false_iff_ne, ne_eq]
        intro hcontra
        exact hid (haid ▸ hcontra)
      · rintro ⟨a, haMem, haid⟩
        apply (hs i hi).mpr
        rcases List.mem_append.mp haMem with hf | hrow
        · exact ⟨a, (List.mem_filter.mp hf).1, haid⟩
        · have : a = analysisRowOf db d := List.mem_singleton.mp hrow
          subst this
          exact absurd haid.symm (by simpa [analysisRowOf] using hid)
  · intro a haMem
    rcases List.mem_append.mp haMem with hf | hrow
    · obtain ⟨i0, hi0, hi0id⟩ := ha a (List.mem_filter.mp hf).1
      refine ⟨_, List.mem_map.mpr ⟨i0, hi0, rfl⟩, ?_⟩
      rw [flip_incident_id]
      exact hi0id
    · have : a = analysisRowOf db d := List.mem_singleton.mp hrow
      subst this
      obtain ⟨i0, hi0, hi0id⟩ := hg
      refine ⟨_, List.mem_map.mpr ⟨i0, hi0, rfl⟩, ?_⟩
      rw [flip_incident_id]
      simpa [analysisRowOf] using hi0id

theorem statusCoupled_feedback (db : DB) (d : FeedbackData)
    (hs : StatusCoupled db) (ha : AnalysisAnchored db) :
    StatusCoupled (insert_feedback db d).2 ∧
      AnalysisAnchored (insert_feedback db d).2 :=
  ⟨hs, ha⟩

theorem goodOps_statusCoupled (ops : List StoreOp) :
    ∀ db : DB, StatusCoupled db → AnalysisAnchored db → GoodOps db ops →
      StatusCoupled (applyOps db ops) ∧ AnalysisAnchored (applyOps db ops) := by
  induction ops with
  | nil => exact fun db hs ha _ => ⟨hs, ha⟩
  | cons op rest ih =>
    intro db hs ha hg
    obtain ⟨hop, hrest⟩ := hg
    have hstep : StatusCoupled (applyOp db op) ∧ AnalysisAnchored (applyOp db op) := by
      cases op with
      | intake d => exact statusCoupled_intake db d hs ha hop
      | commitAnalysis d => exact statusCoupled_commit db d hs ha hop
      | appendFeedback d => exact statusCoupled_feedback db d hs ha
      | setStatus i s => exact absurd hop (by simp [GoodOp])
    exact ih (applyOp db op) hstep.1 hstep.2 hrest

/-- **C1 (amended).** After every sequence of store operations in which
intake uses the default `'downloaded'` status, no direct status update is
issued, and every analysis commit targets a stored incident, an incident's
status is `'analyzed'` iff an Analysis row with its incident_id exists;
and a successful `insert_analysis` both writes the Analysis row and flips
the matching incident's status to `'analyzed'` (stamping `analyzed_at`)
within the one call. -/
theorem statusCoupling_amended (ops : List StoreOp) (h : GoodOps emptyDB ops) :
    (∀ i ∈ (applyOps emptyDB ops).incidents,
      (i.status = "analyzed" ↔
        ∃ a ∈ (applyOps emptyDB ops).analysis, a.incident_id = i.incident_id)) ∧
    (∀ (db : DB) (d : AnalysisData),
      analysisRowOf db d ∈ (insert_analysis db d).2.analysis ∧
      (∀ i ∈ (insert_analysis db d).2.incidents, i.incident_id = d.incident_id →
        i.status = "analyzed" ∧ i.analyzed_at = some (db.clock + 1))) := by
  refine ⟨?_, ?_⟩
  · have hempty : StatusCoupled emptyDB ∧ AnalysisAnchored emptyDB := by
      constructor <;> intro x hx <;> simp [emptyDB] at hx
    exact (goodOps_statusCoupled ops emptyDB hempty.1 hempty.2 h).1
  · intro db d
    rw [insert_analysis_state]
    constructor
    · exact List.mem_append_right _ (List.mem_singleton.mpr rfl)
    · intro i hi hid
      obtain ⟨i0, hi0, rfl⟩ := List.mem_map.mp hi
      rw [flip_incident_id] at hid
      rw [if_pos (by simp [hid])]
      exact ⟨rfl, rfl⟩

/-- The operation sequence of the C1 witness: intake `I1`, then commit an
analysis for it. -/
def c1Ops : List StoreOp :=
  [.intake { incident_id := "I1" },
   .commitAnalysis { incident_id := "I1", gemini_verdict := some "TRUE_POSITIVE" }]

/-- Witness for C1 (amended) at a concrete good operation sequence. -/
theorem statusCoupling_amended_witness :
    GoodOps emptyDB c1Ops ∧
    (∀ i ∈ (applyOps emptyDB c1Ops).incidents,
      (i.status = "analyzed" ↔
        ∃ a ∈ (applyOps emptyDB c1Ops).analysis, a.incident_id = i.incident_id)) :=
  ⟨by decide, (statusCoupling_amended c1Ops (by decide)).1⟩

/-- Counterexample to C1 as stated: `update_incident_status` — one of the
store's operations, and the one the claim itself cites — advances the
status to `'analyzed'` without writing any Analysis row, so after
`insert_incident(I1); update_incident_status(I1, 'analyzed')` the incident
has status `'analyzed'` while no Analysis row exists. -/
theorem statusCoupling_counterexample :
    ((applyOps emptyDB [.intake { incident_id := "I1" },
        .setStatus "I1" "analyzed"]).incidents.map
        (fun i => (i.incident_id, i.status)) = [("I1", "analyzed")]) ∧
    (applyOps emptyDB [.intake { incident_id := "I1" },
        .setStatus "I1" "analyzed"]).analysis = [] := by
  decide

/-- **C4.** For every incident record, calling `insert_incident` a second
time with the same `incident_id` leaves exactly one Incident row in the
store (the first record's fields unchanged) and the second call returns
`false` without raising an error. -/
theorem insertIncident_idempotent (db : DB) (d d' : IncidentData)
    (h0 : ∀ i ∈ db.incidents, i.incident_id ≠ d.incident_id)
    (h1 : d'.incident_id = d.incident_id) :
    (insert_incident db d).1 = true ∧
    (insert_incident (insert_incident db d).2 d').1 = false ∧
    (insert_incident (insert_incident db d).2 d').2 = (insert_incident db d).2 ∧
    (insert_incident db d).2.incidents.filter
      (fun i => i.incident_id == d.incident_id) = [incidentRowOf d db.clock] := by
  have hany : (db.incidents.any fun i => i.incident_id == d.incident_id) = false := by
    simp only [List.any_eq_false, beq_iff_eq]
    exact h0
  have hfilter : db.incidents.filter (fun i => i.incident_id == d.incident_id) = [] := by
    simp only [List.filter_eq_nil_iff, beq_iff_eq]
    exact h0
  have hfirst : insert_incident db d =
      (true, { db with
        incidents := db.incidents ++ [incidentRowOf d db.clock],
        clock := db.clock + 1 }) := by
    simp [insert_incident, hany]
  have hany2 : (({ db with
      incidents := db.incidents ++ [incidentRowOf d db.clock],
      clock := db.clock + 1 } : DB).incidents.any
        fun i => i.incident_id == d'.incident_id) = true := by
    simp [List.any_append, incidentRowOf, h1]
  refine ⟨by rw [hfirst], ?_, ?_, ?_⟩
  · rw [hfirst]
    simp [insert_incident, hany2]
  · rw [hfirst]
    simp [insert_incident, hany2]
  · rw [hfirst]
    simp [List.filter_append, hfilter, incidentRowOf]

/-- Witness for C4: a fresh store, the same id inserted twice. -/
theorem insertIncident_idempotent_witness :
    (insert_incident emptyDB { incident_id := "I1", file_name := "a.txt" }).1 = true ∧
    (insert_incident
      (insert_incident emptyDB { incident_id := "I1", file_name := "a.txt" }).2
      { incident_id := "I1", file_name := "b.txt" }).1 = false ∧
    (insert_incident
      (insert_incident emptyDB { incident_id := "I1", file_name := "a.txt" }).2
      { incident_id := "I1", file_name := "b.txt" }).2 =
      (insert_incident emptyDB { incident_id := "I1", file_name := "a.txt" }).2 ∧
    (insert_incident emptyDB
      { incident_id := "I1", file_name := "a.txt" }).2.incidents.filter
      (fun i => i.incident_id == "I1") =
      [incidentRowOf { incident_id := "I1", file_name := "a.txt" } emptyDB.clock] :=
  insertIncident_idempotent emptyDB
    { incident_id := "I1", file_name := "a.txt" }
    { incident_id := "I1", file_name := "b.txt" }
    (by decide) (by decide)

/-! ### C6, C7, C8, C10: orchestrator behaviour -/

/-- A store holding the single freshly downloaded incident `I1`; base state
for the concrete orchestrator runs below. -/
def oneIncidentDB : DB := (insert_incident emptyDB { incident_id := "I1" }).2

/-- **C7 (amended).** Every classification failure yields a structured
result with `success = false` and an error string, and — except for the
early missing-`metadata.json` check, whose result dict has no
`incident_id` key — it also carries the incident's id. No failure is a
thrown fault: `analyze_incident` is a total function, and the cycle's
`except` never fires. -/
theorem analyzeFailure_structured (db : DB) (id : String) (dir : IncidentDir)
    (eng : EngineOutcome) (t : Int)
    (hfail : (analyze_incident db id dir eng t).1.success = false) :
    (analyze_incident db id dir eng t).1.error.isSome = true ∧
    (dir.metadataExists = true →
      (analyze_incident db id dir eng t).1.incident_id = some id) ∧
    (dir.metadataExists = false →
      (analyze_incident db id dir eng t).1.incident_id = none) := by
  obtain ⟨me, mp, file⟩ := dir
  cases me with
  | false => simp [analyze_incident]
  | true =>
    cases mp with
    | error e => simp [analyze_incident]
    | ok u =>
      cases eng with
      | raised e => simp [analyze_incident]
      | replied raw parsed =>
        cases parsed with
        | error e => simp [analyze_incident]
        | ok r =>
          cases hv : r.verdict with
          | none => simp [analyze_incident, hv]
          | some v =>
            cases hk : firstMissingKey r with
            | none =>
              exfalso
              simp [analyze_incident, hv, hk] at hfail
            | some k =>
              simp [analyze_incident, hv, hk]

/-- Witness for C7 (amended): an engine fault on a well-formed directory. -/
theorem analyzeFailure_structured_witness :
    ((analyze_incident oneIncidentDB "I1" {} (.raised "engine timeout") 0).1.success
      = false) ∧
    ((analyze_incident oneIncidentDB "I1" {} (.raised "engine timeout") 0).1.error.isSome
      = true) ∧
    ((analyze_incident oneIncidentDB "I1" {} (.raised "engine timeout") 0).1.incident_id
      = some "I1") :=
  ⟨by decide,
    (analyzeFailure_structured oneIncidentDB "I1" {} (.raised "engine timeout") 0
      (by decide)).1,
    (analyzeFailure_structured oneIncidentDB "I1" {} (.raised "engine timeout") 0
      (by decide)).2.1 rfl⟩

/-- Counterexample to C7 as stated: when `metadata.json` is missing, the
failure dict contains no `incident_id` key, so the structured result does
not carry the incident's id. -/
theorem analyzeFailure_counterexample :
    ((analyze_incident oneIncidentDB "I1" { metadataExists := false }
        (.raised "never invoked") 0).1.success = false) ∧
    ((analyze_incident oneIncidentDB "I1" { metadataExists := false }
        (.raised "never invoked") 0).1.incident_id = none) := by
  decide

/-- **C6 (amended).** A classification that fails at engine invocation, at
JSON-parsing of the reply, or on a parsed reply lacking the `verdict`
field returns a structured failure, leaves the store unchanged (the
incident's status stays `'downloaded'` with no Analysis row, so the same
pending selection results next cycle), and the cycle counts the failure in
its error tally. (A parsed reply that has `verdict` but lacks another
required field fails *after* persisting — see the counterexample.) -/
theorem retryableFailure_spec (db : DB) (id : String) (dir : IncidentDir)
    (eng : EngineOutcome) (t : Int)
    (hmeta : dir.metadataExists = true) (hparse : dir.metadataParse = .ok ())
    (heng : (∃ e, eng = .raised e) ∨ (∃ raw e, eng = .replied raw (.error e)) ∨
      (∃ raw r, eng = .replied raw (.ok r) ∧ r.verdict = none)) :
    (analyze_incident db id dir eng t).1.success = false ∧
    (analyze_incident db id dir eng t).2 = db ∧
    (∀ n, get_pending_incidents (analyze_incident db id dir eng t).2 n =
      get_pending_incidents db n) ∧
    (∀ (res : CycleResult) (inc : IncidentRow),
      cycleStep (fun _ => { dirExists := true, dir := dir, engine := eng, elapsed := t })
        (res, db) inc = ({ res with errors := res.errors + 1 }, db)) := by
  have key : ∀ (db' : DB) (id' : String),
      (analyze_incident db' id' dir eng t).1.success = false ∧
      (analyze_incident db' id' dir eng t).2 = db' := by
    intro db' id'
    rcases heng with ⟨e, rfl⟩ | ⟨raw, e, rfl⟩ | ⟨raw, r, rfl, hv⟩
    · simp [analyze_incident, hmeta, hparse]
    · simp [analyze_incident, hmeta, hparse]
    · simp [analyze_incident, hmeta, hparse, hv]
  refine ⟨(key db id).1, (key db id).2, ?_, ?_⟩
  · intro n
    rw [(key db id).2]
  · intro res inc
    have hk := key db inc.incident_id
    simp [cycleStep, hk.1, hk.2]

/-- Witness for C6 (amended): engine fault on the one-incident store. -/
theorem retryableFailure_spec_witness :
    (({} : IncidentDir).metadataExists = true) ∧
    ((analyze_incident oneIncidentDB "I1" {} (.raised "engine timeout") 7).1.success
      = false) ∧
    ((analyze_incident oneIncidentDB "I1" {} (.raised "engine timeout") 7).2
      = oneIncidentDB) :=
  ⟨rfl,
    (retryableFailure_spec oneIncidentDB "I1" {} (.raised "engine timeout") 7
      rfl rfl (Or.inl ⟨_, rfl⟩)).1,
    (retryableFailure_spec oneIncidentDB "I1" {} (.raised "engine timeout") 7
      rfl rfl (Or.inl ⟨_, rfl⟩)).2.1⟩

/-- The reply of the C6 counterexample: `verdict` present, every other
required field absent. -/
def verdictOnlyReply : Reply := { verdict := some "TRUE_POSITIVE" }

/-- Counterexample to C6 as stated: a reply missing the required
`confidence` field is a parse-stage failure, yet the code persists the
Analysis and advances the status *before* the `KeyError`, so the failure
result leaves the incident `analyzed` with an Analysis row — not
`'downloaded'` — and it is no longer selected as pending. -/
theorem retryableFailure_counterexample :
    ((analyze_incident oneIncidentDB "I1" {}
        (.replied "raw-reply" (.ok verdictOnlyReply)) 0).1.success = false) ∧
    ((analyze_incident oneIncidentDB "I1" {}
        (.replied "raw-reply" (.ok verdictOnlyReply)) 0).1.error = some "'confidence'") ∧
    ((analyze_incident oneIncidentDB "I1" {}
        (.replied "raw-reply" (.ok verdictOnlyReply)) 0).2.incidents.map
        (fun i => (i.incident_id, i.status)) = [("I1", "analyzed")]) ∧
    ((analyze_incident oneIncidentDB "I1" {}
        (.replied "raw-reply" (.ok verdictOnlyReply)) 0).2.analysis.length = 1) ∧
    (get_pending_incidents (analyze_incident oneIncidentDB "I1" {}
        (.replied "raw-reply" (.ok verdictOnlyReply)) 0).2 10 = []) := by
  decide

/-- **C8 (amended).** A successful classification returns
`{success: true, incident_id, analysis_id, verdict, confidence,
executive_summary, incident_context, reasoning, risk_level, indicators,
processing_time, has_file, file_name}` — with no `tokens_used` key — and
the persisted Analysis row carries the reply's verdict, confidence and
reasoning, the verbatim raw reply and the processing time, while its
`executive_summary` and `risk_level` columns are left NULL and
`tokens_used` is stored as `0` (the insert payload carries none of the
three). -/
theorem analyzeSuccess_shape (db : DB) (id : String) (dir : IncidentDir)
    (raw : String) (r : Reply) (t : Int) (v : String)
    (hmeta : dir.metadataExists = true) (hparse : dir.metadataParse = .ok ())
    (hv : r.verdict = some v) (hcomplete : firstMissingKey r = none) :
    (analyze_incident db id dir (.replied raw (.ok r)) t).1 =
      { success := true
        incident_id := some id
        analysis_id := some db.nextAnalysisId
        verdict := some v
        confidence := r.confidence
        executive_summary := r.executive_summary
        incident_context := r.incident_context
        reasoning := r.reasoning
        risk_level := some (r.risk_level.getD "N/A")
        indicators := some (r.indicators.getD [])
        processing_time := some t
        tokens_used := none
        has_file := some dir.file.isSome
        file_name := some (dir.file.map (·.name)) } ∧
    (analyze_incident db id dir (.replied raw (.ok r)) t).2.analysis.filter
      (fun a => a.incident_id == id) =
      [analysisRowOf db
        { incident_id := id
          gemini_verdict := some v
          gemini_confidence := r.confidence
          gemini_reasoning := r.reasoning
          gemini_raw_response := some raw
          processing_time := some t }] := by
  constructor
  · simp [analyze_incident, hmeta, hparse, hv, hcomplete, insert_analysis]
  · have h2 : (analyze_incident db id dir (.replied raw (.ok r)) t).2 =
        (insert_analysis db
          { incident_id := id
            gemini_verdict := some v
            gemini_confidence := r.confidence
            gemini_reasoning := r.reasoning
            gemini_raw_response := some raw
            processing_time := some t }).2 := by
      simp [analyze_incident, hmeta, hparse, hv, hcomplete]
    rw [h2]
    exact insertAnalysis_rows db
      { incident_id := id
        gemini_verdict := some v
        gemini_confidence := r.confidence
        gemini_reasoning := r.reasoning
        gemini_raw_response := some raw
        processing_time := some t }

/-- The fully populated reply of the C8 runs. -/
def richReply : Reply :=
  { verdict := some "TRUE_POSITIVE"
    confidence := some 90
    executive_summary := some "resumen ejecutivo"
    incident_context := some "contexto"
    reasoning := some "razonamiento"
    risk_level := some "HIGH"
    indicators := some ["tarjetas visibles"] }

/-- Witness for C8 (amended) at the concrete rich reply. -/
theorem analyzeSuccess_shape_witness :
    (richReply.verdict = some "TRUE_POSITIVE") ∧
    ((analyze_incident oneIncidentDB "I1" {}
        (.replied "raw-reply" (.ok richReply)) 5).1 =
      { success := true
        incident_id := some "I1"
        analysis_id := some oneIncidentDB.nextAnalysisId
        verdict := some "TRUE_POSITIVE"
        confidence := richReply.confidence
        executive_summary := richReply.executive_summary
        incident_context := richReply.incident_context
        reasoning := richReply.reasoning
        risk_level := some (richReply.risk_level.getD "N/A")
        indicators := some (richReply.indicators.getD [])
        processing_time := some 5
        tokens_used := none
        has_file := some (({} : IncidentDir).file.isSome)
        file_name := some (({} : IncidentDir).file.map (·.name)) }) :=
  ⟨rfl,
    (analyzeSuccess_shape oneIncidentDB "I1" {} "raw-reply" richReply 5
      "TRUE_POSITIVE" rfl rfl rfl rfl).1⟩

/-- Counterexample to C8 as stated: on a fully populated successful reply,
the returned dict has no `tokens_used` key, and the persisted Analysis row
does not carry the reply's `executive_summary` or `risk_level` (both NULL)
nor a `tokens_used` count (stored as 0). -/
theorem analyzeSuccess_counterexample :
    ((analyze_incident oneIncidentDB "I1" {}
        (.replied "raw-reply" (.ok richReply)) 5).1.success = true) ∧
    ((analyze_incident oneIncidentDB "I1" {}
        (.replied "raw-reply" (.ok richReply)) 5).1.tokens_used = none) ∧
    ((analyze_incident oneIncidentDB "I1" {}
        (.replied "raw-reply" (.ok richReply)) 5).2.analysis.map
        (fun a => (a.executive_summary, a.risk_level, a.tokens_used)) =
      [(none, none, 0)]) := by
  decide

/-- **C10.** For every evidence file whose extension is not a recognized
text, document, or image format — and for every file whose format-specific
reader (image decode, PDF/Word/Excel extraction) fails — the evidence
encoder returns a placeholder text fragment naming the file instead of
raising (`read_file_content` is total), and the orchestrator still
produces a completed (`success: true`) Analysis for that incident whenever
the engine replies with a complete parsed reply. -/
theorem readFileContent_placeholder (f : EvidenceFile)
    (h : (f.ext ∉ imageExts ∧ f.ext ∉ textExts ∧
          ¬f.ext = ".pdf" ∧ ¬f.ext = ".docx" ∧ ¬f.ext = ".doc" ∧
          ¬f.ext = ".xlsx" ∧ ¬f.ext = ".xls") ∨
        ((f.ext ∈ imageExts ∨ f.ext = ".pdf" ∨ f.ext = ".docx" ∨
          f.ext = ".doc" ∨ f.ext = ".xlsx" ∨ f.ext = ".xls") ∧
          ∃ e, f.readOutcome = .error e)) :
    (∃ pre post, read_file_content f = .text (pre ++ f.name ++ post)) ∧
    (∀ (db : DB) (id raw v : String) (dir : IncidentDir) (r : Reply) (t : Int),
      dir.metadataExists = true → dir.metadataParse = .ok () →
      dir.file = some f → r.verdict = some v → firstMissingKey r = none →
      (analyze_incident db id dir (.replied raw (.ok r)) t).1.success = true) := by
  constructor
  · rcases h with ⟨h1, h2, h3, h4, h5, h6, h7⟩ | ⟨hext, e, herr⟩
    · refine ⟨"[ARCHIVO BINARIO NO SOPORTADO: ", " - Tipo: " ++ f.ext ++ "]", ?_⟩
      simp [read_file_content, h1, h2, h3, h4, h5, h6, h7, String.append_assoc]
    · rcases hext with himg | hpdf | hdocx | hdoc | hxlsx | hxls
      · refine ⟨"[ERROR cargando imagen ", ": " ++ e ++ "]", ?_⟩
        simp [read_file_content, himg, herr, String.append_assoc]
      · refine ⟨"[ARCHIVO PDF: ", " - Error: " ++ e ++ "]", ?_⟩
        simp [read_file_content, hpdf, herr, String.append_assoc,
          (show (".pdf" : String) ∉ imageExts by decide),
          (show (".pdf" : String) ∉ textExts by decide)]
      · refine ⟨"[ARCHIVO WORD: ", " - Error: " ++ e ++ "]", ?_⟩
        simp [read_file_content, hdocx, herr, String.append_assoc,
          (show (".docx" : String) ∉ imageExts by decide),
          (show (".docx" : String) ∉ textExts by decide)]
      · refine ⟨"[ARCHIVO WORD: ", " - Error: " ++ e ++ "]", ?_⟩
        simp [read_file_content, hdoc, herr, String.append_assoc,
          (show (".doc" : String) ∉ imageExts by decide),
          (show (".doc" : String) ∉ textExts by decide)]
      · refine ⟨"[ARCHIVO EXCEL: ", " - Error: " ++ e ++ "]", ?_⟩
        simp [read_file_content, hxlsx, herr, String.append_assoc,
          (show (".xlsx" : String) ∉ imageExts by decide),
          (show (".xlsx" : String) ∉ textExts by decide)]
      · refine ⟨"[ARCHIVO EXCEL: ", " - Error: " ++ e ++ "]", ?_⟩
        simp [read_file_content, hxls, herr, String.append_assoc,
          (show (".xls" : String) ∉ imageExts by decide),
          (show (".xls" : String) ∉ textExts by decide)]
  · intro db id raw v dir r t hmeta hparse _ hv hcomplete
    simp [analyze_incident, hmeta, hparse, hv, hcomplete]

/-- The unsupported-extension evidence artifact of the C10 witness. -/
def binaryEvidence : EvidenceFile := { name := "dump.bin", ext := ".bin" }

/-- Witness for C10: an unsupported `.bin` artifact attached to an
otherwise complete run yields a placeholder fragment naming the file and a
successful Analysis. -/
theorem readFileContent_placeholder_witness :
    (imageExts.contains binaryEvidence.ext = false) ∧
    (∃ pre post, read_file_content binaryEvidence =
      .text (pre ++ binaryEvidence.name ++ post)) ∧
    ((analyze_incident oneIncidentDB "I1" { file := some binaryEvidence }
        (.replied "raw-reply" (.ok richReply)) 5).1.success = true) := by
  have h := readFileContent_placeholder binaryEvidence
    (Or.inl (by refine ⟨by decide, by decide, ?_, ?_, ?_, ?_, ?_⟩ <;> decide))
  exact ⟨by decide, h.1,
    h.2 oneIncidentDB "I1" "raw-reply" "TRUE_POSITIVE"
      { file := some binaryEvidence } richReply 5 rfl rfl rfl rfl rfl⟩

/-! ### C9: feedback loop on confirmation -/

/-- **C9 evidence.** In `feedback_cli`, confirming the verdict appends a
Feedback row with `corrected_verdict = original_verdict` and leaves the
`analysis` table untouched; `insert_feedback` never writes to the
`analysis` (or `incidents`) table at all. But in `cyber_triage_cli`'s
analyze flow, confirming the verdict records nothing: `collect_feedback`
returns `None` — while printing `'✅ Feedback guardado (Positivo)'` — and
the caller skips `submit_feedback`, so the store is unchanged. -/
theorem confirmFeedback_behaviour :
    (∀ (db : DB) (inc : AnalyzedView),
      (feedbackCliCollect db inc .confirm).2.feedback =
        db.feedback ++
          [{ id := db.nextFeedbackId
             incident_id := inc.incident_id
             analysis_id := inc.analysis_id
             original_verdict := inc.gemini_verdict
             corrected_verdict := inc.gemini_verdict
             analyst_comment := "Confirmado por analista"
             relevance_score := 1
             created_at := db.clock }] ∧
      (feedbackCliCollect db inc .confirm).2.analysis = db.analysis) ∧
    (∀ (db : DB) (d : FeedbackData),
      (insert_feedback db d).2.analysis = db.analysis ∧
      (insert_feedback db d).2.incidents = db.incidents) ∧
    (cyberCliCollect "TRUE_POSITIVE" .confirm = none) ∧
    (∀ (db : DB) (res : AnalyzeResult), cyberCliHandleFeedback db res .confirm = db) :=
  ⟨fun _ _ => ⟨rfl, rfl⟩, fun _ _ => ⟨rfl, rfl⟩, rfl, fun _ _ => rfl⟩
